import Mathlib

/-!
Shallow embedding of the VisualizeGit learning script
(src/vgit/animations/push.py) and theorems about its documented behaviour.

Conventions of the embedding:
  * console side effects are reified as a list of events: each
    `sys.stdout.write(s)` becomes `Ev.write s`, each `print(s)` becomes
    `Ev.write (s ++ "\n")`, each `time.sleep(d)` becomes `Ev.sleep d`;
  * Python float delays are modelled as exact rationals (all delay
    arithmetic in the source is on decimal literals, so no rounding
    subtlety matters for the stated properties);
  * Python exceptions are modelled by `PyRes.exn`, carrying the state at
    the moment of the raise, the events emitted before it, and a message;
  * `random.choices` and `time.strftime` are modelled by an abstract
    environment `Env` supplying the n-th generated hash and timestamp,
    with a `ticks` counter recording how many have been consumed;
  * Python dicts (string-keyed, insertion ordered, unique keys) are
    modelled as association lists with `dictGet?` and `dictSet`.
-/

namespace VGit

/- ANSI palette, push.py lines 15-25. -/

namespace Color

def RED : String := "\x1b[91m"

def GREEN : String := "\x1b[92m"

def YELLOW : String := "\x1b[93m"

def BLUE : String := "\x1b[94m"

def MAGENTA : String := "\x1b[95m"

def CYAN : String := "\x1b[96m"

def WHITE : String := "\x1b[97m"

def BOLD : String := "\x1b[1m"

def END : String := "\x1b[0m"

end Color

/-- Console event: one `sys.stdout.write` (a `print` writes its text
followed by a line break) or one `time.sleep` with its duration. -/
inductive Ev where
  | write : String → Ev
  | sleep : ℚ → Ev
deriving DecidableEq

/-- Event of `print(s)`: the text plus the trailing line break. -/
def prn (s : String) : Ev := Ev.write (s ++ "\n")

/-- Result of running a stateful, console-writing piece of Python code:
either a normal return or an uncaught exception. Both carry the state
(at return or at raise) and the events emitted so far. -/
inductive PyRes (σ : Type) where
  | ok : σ → List Ev → PyRes σ
  | exn : σ → List Ev → String → PyRes σ
deriving DecidableEq

/-- State component of a result (the state at return or at raise). -/
def PyRes.state {σ : Type} : PyRes σ → σ
  | .ok st _ => st
  | .exn st _ _ => st

/-- Events component of a result. -/
def PyRes.events {σ : Type} : PyRes σ → List Ev
  | .ok _ evs => evs
  | .exn _ evs _ => evs

/-- Concatenation of the per-element event lists of a loop body, in
iteration order (the shape of every `for` loop in the source). -/
def cmap {α β : Type} (f : α → List β) : List α → List β
  | [] => []
  | x :: xs => f x ++ cmap f xs

/-- The strings written by an event list, sleeps dropped. -/
def writesOf (evs : List Ev) : List String :=
  evs.filterMap fun e => match e with | .write s => some s | .sleep _ => none

/-- The sleep durations of an event list, writes dropped. -/
def sleepsOf (evs : List Ev) : List ℚ :=
  evs.filterMap fun e => match e with | .write _ => none | .sleep q => some q

/- Data model, push.py lines 39-71. -/

/-- Commit dataclass, push.py lines 39-44. -/
structure Commit where
  hash : String
  message : String
  author : String
  timestamp : String
deriving DecidableEq

/-- Branch dataclass, push.py lines 46-50. -/
structure Branch where
  name : String
  commits : List Commit
  is_current : Bool := false
deriving DecidableEq

/-- Abstract environment supplying the n-th value the source draws from
`random.choices` (a commit hash) and from `time.strftime` (a timestamp). -/
structure Env where
  hash : Nat → String
  time : Nat → String

/-- GitRepository, push.py lines 52-62. The field `initDone` embeds the
source field `is_initialized`; `ticks` counts how many hash/timestamp
pairs have been consumed from the environment (embedding artifact for
the RNG and clock, not a source field). -/
structure GitRepository where
  name : String
  branches : List (String × Branch)
  current_branch : String
  staged_files : List String
  working_files : List String
  remote_url : String
  initDone : Bool
  ticks : Nat
deriving DecidableEq

/-- The repository `GitRepository()` builds, push.py lines 55-62. -/
def GitRepository.make : GitRepository :=
  { name := "my-project"
    branches := []
    current_branch := "main"
    staged_files := []
    working_files := []
    remote_url := "https://github.com/user/my-project.git"
    initDone := false
    ticks := 0 }

/-- Python dict lookup `d[k]` on an insertion-ordered association list
(first matching key; keys are unique by construction). -/
def dictGet? : List (String × Branch) → String → Option Branch
  | [], _ => none
  | p :: rest, k => if p.1 == k then some p.2 else dictGet? rest k

/-- Python dict assignment `d[k] = v`: replaces the value in place when
the key exists, otherwise appends the pair at the end. -/
def dictSet : List (String × Branch) → String → Branch → List (String × Branch)
  | [], k, v => [(k, v)]
  | p :: rest, k, v => if p.1 == k then (k, v) :: rest else p :: dictSet rest k v

/- GitAnimator, push.py lines 73-153. -/

/-- GitAnimator state: the speed multiplier and the delay precomputed in
`__init__` as `0.5 / speed` (push.py lines 76-78). -/
structure GitAnimator where
  speed : ℚ
  delay : ℚ
deriving DecidableEq

/-- Constructor `GitAnimator(speed)`, push.py lines 76-78:
`self.delay = 0.5 / speed`. -/
def GitAnimator.make (speed : ℚ) : GitAnimator :=
  { speed := speed, delay := (1 / 2) / speed }

/-- Per-character typewriter pause, computed at call time from the
current speed attribute: `0.03 / self.speed` (push.py line 85). -/
def typewriterDelay (a : GitAnimator) : ℚ := (3 / 100) / a.speed

/-- `typewriter(text, color)`, push.py lines 80-86: one colored write and
one sleep per character, then a line break. -/
def typewriter (a : GitAnimator) (text : String) (color : String) : List Ev :=
  cmap (fun c =>
      [Ev.write (color ++ String.singleton c ++ Color.END),
       Ev.sleep (typewriterDelay a)])
    text.data ++ [Ev.write "\n"]

/-- `int(bar_length * progress)` with `bar_length = 30` and
`progress = i / steps` (push.py lines 90-93); `int` on a nonnegative
value truncates, i.e. floors. -/
def pbFilled (steps i : Nat) : Nat := ⌊(30 : ℚ) * ((i : ℚ) / (steps : ℚ))⌋₊

/-- `int(progress * 100)` (push.py line 95). -/
def pbPercent (steps i : Nat) : Nat := ⌊((i : ℚ) / (steps : ℚ)) * 100⌋₊

/-- The bar text `'█' * filled + '░' * (bar_length - filled)`
(push.py line 94). -/
def barString (filled : Nat) : String :=
  String.mk (List.replicate filled '█') ++ String.mk (List.replicate (30 - filled) '░')

/-- The full frame written for step `i` (push.py line 97). -/
def pbFrame (steps : Nat) (description : String) (i : Nat) : String :=
  "\r" ++ Color.CYAN ++ description ++ ": " ++ Color.GREEN ++ "[" ++
    barString (pbFilled steps i) ++ "] " ++ toString (pbPercent steps i) ++ "%" ++ Color.END

/-- `progress_bar(steps, description)`, push.py lines 88-100. With
`steps = 0` the first loop iteration evaluates `0 / 0`, and Python float
division raises `ZeroDivisionError` before anything is written; there is
no special case in the source. Otherwise each of the `steps + 1`
iterations writes one frame and sleeps `self.delay`, and the loop is
followed by `print()` -- a bare line break. -/
def progress_bar (a : GitAnimator) (steps : Nat) (description : String) : PyRes Unit :=
  if steps = 0 then
    .exn () [] "ZeroDivisionError: division by zero"
  else
    .ok () (cmap (fun i => [Ev.write (pbFrame steps description i), Ev.sleep a.delay])
        (List.range (steps + 1)) ++ [Ev.write "\n"])

/-- `commit_flow(commit)`, push.py lines 102-119: the metadata prints,
then the three-stage flow with a connector before the second and third
stages and a sleep after each stage. -/
def commit_flow (a : GitAnimator) (c : Commit) : List Ev :=
  [prn ("\n" ++ Color.YELLOW ++ "Creating commit..." ++ Color.END),
   Ev.sleep a.delay,
   prn (Color.GREEN ++ "✓" ++ Color.END ++ " Commit " ++ Color.BOLD ++ c.hash ++ Color.END),
   prn ("  Author: " ++ Color.CYAN ++ c.author ++ Color.END),
   prn ("  Date: " ++ c.timestamp),
   prn ("  Message: " ++ Color.WHITE ++ c.message ++ Color.END),
   prn ("  " ++ Color.BOLD ++ "Working Directory" ++ Color.END),
   Ev.sleep a.delay,
   prn (Color.GREEN ++ "    ↓" ++ Color.END),
   prn ("  " ++ Color.BOLD ++ "Staging Area" ++ Color.END),
   Ev.sleep a.delay,
   prn (Color.GREEN ++ "    ↓" ++ Color.END),
   prn ("  " ++ Color.BOLD ++ "Local Repository" ++ Color.END),
   Ev.sleep a.delay]

/-- The upload phase of `push_animation`, push.py lines 129-134: for each
commit one header write, then three arrow writes each followed by a
sleep of `self.delay / 3`. -/
def uploadEvents (a : GitAnimator) (commits : Nat) : List Ev :=
  cmap (fun i =>
      Ev.write ("\r" ++ Color.CYAN ++ "Uploading commit " ++ toString (i + 1) ++ "/" ++
          toString commits ++ " ") ::
        cmap (fun _ => [Ev.write (Color.GREEN ++ "→" ++ Color.END), Ev.sleep (a.delay / 3)])
          (List.range 3))
    (List.range commits)

/-- `push_animation(commits, remote, branch)`, push.py lines 121-137. -/
def push_animation (a : GitAnimator) (commits : Nat) (remote branch : String) : PyRes Unit :=
  let intro := [prn ("\n" ++ Color.MAGENTA ++ "Pushing " ++ toString commits ++
      " commit(s) to " ++ remote ++ "/" ++ branch ++ "..." ++ Color.END)]
  match progress_bar a 3 "Establishing connection" with
  | .exn _ evs m => .exn () (intro ++ evs) m
  | .ok _ evs =>
      .ok () (intro ++ evs ++ uploadEvents a commits ++
        [prn ("\n" ++ Color.GREEN ++ "✓ Push completed successfully!" ++ Color.END),
         prn ("  → " ++ Color.BLUE ++ remote ++ "/" ++ branch ++ Color.END)])

/-- `branch.commits[-3:] if len(branch.commits) > 3 else branch.commits`
(push.py line 151); the negative slice is `drop (length - 3)`. -/
def recentCommits (commits : List Commit) : List Commit :=
  if commits.length > 3 then commits.drop (commits.length - 3) else commits

/-- The lines `branch_visualization` prints for one mapping entry
(push.py lines 144-153): the marker line, then the recent commits in
`reversed` order. -/
def branchBlock (current : String) (p : String × Branch) : List Ev :=
  (prn ((if p.1 == current then Color.GREEN else Color.WHITE) ++
      (if p.1 == current then "* " else "  ") ++ p.1 ++ Color.END)) ::
    (recentCommits p.2.commits).reverse.map
      (fun c => prn ("    " ++ Color.YELLOW ++ c.hash ++ Color.END ++ " " ++ c.message))

/-- `branch_visualization(repo)`, push.py lines 139-153. -/
def branch_visualization (repo : GitRepository) : List Ev :=
  prn ("\n" ++ Color.BOLD ++ "Repository: " ++ repo.name ++ Color.END) ::
    prn "Branch structure:" ::
    cmap (branchBlock repo.current_branch) repo.branches

/- GitLearningSystem, push.py lines 155-413. -/

/-- GitLearningSystem state, push.py lines 158-162. -/
structure GitLearningSystem where
  repo : GitRepository
  animator : GitAnimator
  lessons_completed : Nat
  total_lessons : Nat
deriving DecidableEq

/-- `GitLearningSystem()`: fresh repository, animator with default
speed 1.0, counters 0 and 10 (push.py lines 158-162). -/
def GitLearningSystem.make : GitLearningSystem :=
  { repo := GitRepository.make
    animator := GitAnimator.make 1
    lessons_completed := 0
    total_lessons := 10 }

/-- The fixed author string used by every lesson commit. -/
def author : String := "Student <student@example.com>"

/-- `lesson_init`, push.py lines 180-193. -/
def lesson_init (_env : Env) (s : GitLearningSystem) : PyRes GitLearningSystem :=
  let ev0 := [prn ("\n" ++ Color.BOLD ++ "=== Lesson 1: Repository Initialization ===" ++ Color.END)] ++
    typewriter s.animator "Let\x27s create your first Git repository!" Color.WHITE ++
    [prn ("\n" ++ Color.YELLOW ++ "$ git init" ++ Color.END)]
  match progress_bar s.animator 5 "Initializing repository" with
  | .exn _ evs m => .exn s (ev0 ++ evs) m
  | .ok _ evs =>
      let repo1 := { s.repo with
        initDone := true
        branches := dictSet s.repo.branches "main" ⟨"main", [], true⟩ }
      .ok { s with repo := repo1, lessons_completed := s.lessons_completed + 1 }
        (ev0 ++ evs ++
          [prn (Color.GREEN ++ "✓ Initialized empty Git repository in ./" ++ s.repo.name ++
            "/.git/" ++ Color.END)])

/-- `lesson_add_commit`, push.py lines 195-223. The commit hash and
timestamp are drawn from the environment at the current tick. -/
def lesson_add_commit (env : Env) (s : GitLearningSystem) : PyRes GitLearningSystem :=
  let files := ["README.md", "main.py", "requirements.txt"]
  let repo1 := { s.repo with working_files := s.repo.working_files ++ files }
  let ev0 := [prn ("\n" ++ Color.BOLD ++ "=== Lesson 2: Adding and Committing Files ===" ++ Color.END)] ++
    typewriter s.animator "Files created in working directory:" Color.WHITE ++
    files.map (fun f => prn ("  " ++ Color.CYAN ++ "📄 " ++ f ++ Color.END)) ++
    [prn ("\n" ++ Color.YELLOW ++ "$ git add ." ++ Color.END)]
  match progress_bar s.animator 3 "Staging files" with
  | .exn _ evs m => .exn { s with repo := repo1 } (ev0 ++ evs) m
  | .ok _ evs =>
      let repo2 := { repo1 with staged_files := files }
      let c : Commit := ⟨env.hash repo2.ticks, "Initial commit", author, env.time repo2.ticks⟩
      let repo3 := { repo2 with ticks := repo2.ticks + 1 }
      let ev1 := ev0 ++ evs ++
        [prn ("\n" ++ Color.YELLOW ++ "$ git commit -m \"Initial commit\"" ++ Color.END)] ++
        commit_flow s.animator c
      match dictGet? repo3.branches "main" with
      | none => .exn { s with repo := repo3 } ev1 "KeyError: \x27main\x27"
      | some b =>
          let repo4 := { repo3 with
            branches := dictSet repo3.branches "main" { b with commits := b.commits ++ [c] } }
          .ok { s with repo := repo4, lessons_completed := s.lessons_completed + 1 } ev1

/-- `lesson_branching`, push.py lines 225-254. The first repository
access is `self.repo.branches["main"].commits.copy()`: when `main` is
absent this raises `KeyError` before any state is mutated. On the
success path the new branch is seeded with a copy of the `main` commit
list, the current branch switches, and the two feature commits are
appended to `feature-auth` one per loop iteration. -/
def lesson_branching (env : Env) (s : GitLearningSystem) : PyRes GitLearningSystem :=
  let ev0 := [prn ("\n" ++ Color.BOLD ++ "=== Lesson 3: Branching and Merging ===" ++ Color.END),
      prn ("\n" ++ Color.YELLOW ++ "$ git branch feature-auth" ++ Color.END)] ++
    typewriter s.animator "Creating new branch \x27feature-auth\x27..." Color.WHITE
  match dictGet? s.repo.branches "main" with
  | none => .exn s ev0 "KeyError: \x27main\x27"
  | some mainBr =>
      let newBranch : Branch := ⟨"feature-auth", mainBr.commits, false⟩
      let repo1 := { s.repo with branches := dictSet s.repo.branches "feature-auth" newBranch }
      let ev1 := ev0 ++
        [prn ("\n" ++ Color.YELLOW ++ "$ git checkout feature-auth" ++ Color.END)] ++
        typewriter s.animator "Switching to branch \x27feature-auth\x27..." Color.WHITE
      let repo2 := { repo1 with current_branch := "feature-auth" }
      let c1 : Commit := ⟨env.hash repo2.ticks, "Add login functionality", author,
        env.time repo2.ticks⟩
      let repo3 := { repo2 with ticks := repo2.ticks + 1 }
      let c2 : Commit := ⟨env.hash repo3.ticks, "Add password validation", author,
        env.time repo3.ticks⟩
      let repo4 := { repo3 with ticks := repo3.ticks + 1 }
      let ev2 := ev1 ++ [Ev.sleep 1] ++ commit_flow s.animator c1
      match dictGet? repo4.branches "feature-auth" with
      | none => .exn { s with repo := repo4 } ev2 "KeyError: \x27feature-auth\x27"
      | some b1 =>
          let repo5 := { repo4 with
            branches := dictSet repo4.branches "feature-auth"
              { b1 with commits := b1.commits ++ [c1] } }
          let ev3 := ev2 ++ [Ev.sleep 1] ++ commit_flow s.animator c2
          match dictGet? repo5.branches "feature-auth" with
          | none => .exn { s with repo := repo5 } ev3 "KeyError: \x27feature-auth\x27"
          | some b2 =>
              let repo6 := { repo5 with
                branches := dictSet repo5.branches "feature-auth"
                  { b2 with commits := b2.commits ++ [c2] } }
              let ev4 := ev3 ++ branch_visualization repo6
              .ok { s with repo := repo6, lessons_completed := s.lessons_completed + 1 } ev4

/-- `lesson_push`, push.py lines 256-268: looks up the current branch in
the mapping (a `KeyError` path when absent) and pushes its commit
count. -/
def lesson_push (_env : Env) (s : GitLearningSystem) : PyRes GitLearningSystem :=
  let ev0 := [prn ("\n" ++ Color.BOLD ++ "=== Lesson 4: Pushing to Remote ===" ++ Color.END)] ++
    typewriter s.animator ("Remote repository: " ++ s.repo.remote_url) Color.WHITE ++
    [prn ("\n" ++ Color.YELLOW ++ "$ git push origin " ++ s.repo.current_branch ++ Color.END)]
  match dictGet? s.repo.branches s.repo.current_branch with
  | none => .exn s ev0 ("KeyError: \x27" ++ s.repo.current_branch ++ "\x27")
  | some b =>
      match push_animation s.animator b.commits.length "origin" s.repo.current_branch with
      | .exn _ evs m => .exn s (ev0 ++ evs) m
      | .ok _ evs => .ok { s with lessons_completed := s.lessons_completed + 1 } (ev0 ++ evs)

/- Practice mode renderers, push.py lines 309-365. -/

/-- `simulate_status`, push.py lines 337-341. -/
def simulate_status (repo : GitRepository) : List Ev :=
  [prn (Color.GREEN ++ "On branch " ++ repo.current_branch ++ Color.END),
   prn "Your branch is up to date with \x27origin/main\x27.",
   prn "\nnothing to commit, working tree clean"]

/-- `simulate_log`, push.py lines 343-347: looks up the current branch
(a `KeyError` path when absent) and prints its last up-to-5 commits in
reversed order; `commits[-5:]` is `drop (length - 5)`. -/
def simulate_log (repo : GitRepository) : PyRes Unit :=
  match dictGet? repo.branches repo.current_branch with
  | none => .exn () [] ("KeyError: \x27" ++ repo.current_branch ++ "\x27")
  | some b =>
      .ok () (((b.commits.drop (b.commits.length - 5)).reverse).map
        (fun c => prn (Color.YELLOW ++ c.hash ++ Color.END ++ " " ++ c.message)))

/-- `simulate_branch_list`, push.py lines 349-354. -/
def simulate_branch_list (repo : GitRepository) : List Ev :=
  repo.branches.map fun p =>
    prn ((if p.1 == repo.current_branch then Color.GREEN else Color.WHITE) ++
      (if p.1 == repo.current_branch then "* " else "  ") ++ p.1 ++ Color.END)

/-- `simulate_diff`, push.py lines 356-357. In the source the eight
`print` statements that follow the method header (lines 358-365) are
indented at class level, not inside the method: the method body consists
of the docstring alone, so calling `simulate_diff` prints nothing. -/
def simulate_diff (_repo : GitRepository) : List Ev := []

/-- The eight mis-indented `print` statements of push.py lines 358-365.
Being class-level statements, they execute exactly once, while the class
body is evaluated at import time -- not when `simulate_diff` is called. -/
def classBodyDiffEvents : List Ev :=
  [prn "diff --git a/main.py b/main.py",
   prn "index 1234567..abcdefg 100644",
   prn "--- a/main.py",
   prn "+++ b/main.py",
   prn (Color.CYAN ++ "@@ -1,3 +1,4 @@" ++ Color.END),
   prn " def main():",
   prn "     print(\"Hello, World!\")",
   prn (Color.GREEN ++ "+    print(\x27Welcome to Git!\x27)" ++ Color.END)]

/-- Bool test that `n` is a prefix of `h` (helper for the Python `in`
substring operator). -/
def isPrefixB {α : Type} [BEq α] : List α → List α → Bool
  | [], _ => true
  | _ :: _, [] => false
  | a :: as, b :: bs => a == b && isPrefixB as bs

/-- Bool test that `n` occurs inside `h` as a contiguous run: the Python
`in` operator on strings, over the character lists. -/
def infixB {α : Type} [BEq α] (n : List α) : List α → Bool
  | [] => isPrefixB n []
  | b :: bs => isPrefixB n (b :: bs) || infixB n bs

/-- The dispatch of `practice_mode` for one practiced command, push.py
lines 327-335: substring match on the command text, first match wins,
in the order status / log / branch / diff. -/
def practiceDispatch (s : GitLearningSystem) (cmd : String) : PyRes Unit :=
  if infixB "status".data cmd.data then .ok () (simulate_status s.repo)
  else if infixB "log".data cmd.data then simulate_log s.repo
  else if infixB "branch".data cmd.data then .ok () (simulate_branch_list s.repo)
  else if infixB "diff".data cmd.data then .ok () (simulate_diff s.repo)
  else .ok () []

/- Entry point, push.py lines 416-445. -/

/-- The state built by the `--fast` branch of `main`, push.py lines
420-422: a fresh system whose animator speed attribute is reassigned to
3.0 after construction. Nothing recomputes the `delay` attribute. -/
def fastModeSetup : GitLearningSystem :=
  let system := GitLearningSystem.make
  { system with animator := { system.animator with speed := 3 } }

/-- The out-of-range message of push.py line 439, with `len(lessons) = 4`. -/
def usageMsg (n : Int) : String :=
  "Lesson " ++ toString n ++ " not found. Available: 1-4"

/-- The `--lesson` dispatch on an already-converted lesson number,
push.py lines 427-439: build a fresh system, run the `n`-th lesson when
`1 <= n <= 4`, otherwise print the range message and touch nothing. -/
def runLesson (env : Env) (n : Int) : PyRes GitLearningSystem :=
  let system := GitLearningSystem.make
  if 1 ≤ n ∧ n ≤ 4 then
    if n = 1 then lesson_init env system
    else if n = 2 then lesson_add_commit env system
    else if n = 3 then lesson_branching env system
    else lesson_push env system
  else .ok system [prn (usageMsg n)]

/-- Strip leading and trailing whitespace, as `int()` does before
parsing. -/
def pyStrip (s : List Char) : List Char :=
  ((s.dropWhile Char.isWhitespace).reverse.dropWhile Char.isWhitespace).reverse

/-- After a leading digit: digits, with single underscores allowed only
between digits (the Python 3 integer-literal rule). -/
def pyDigitsCore : List Char → Bool
  | [] => true
  | '_' :: c :: cs => c.isDigit && pyDigitsCore cs
  | '_' :: [] => false
  | c :: cs => c.isDigit && pyDigitsCore cs

/-- A valid unsigned digit run for `int()`: nonempty, starts with a
digit, underscores only between digits. -/
def pyDigits : List Char → Bool
  | [] => false
  | c :: cs => c.isDigit && pyDigitsCore cs

/-- Numeric value of a digit run, underscores skipped. -/
def digitsVal (l : List Char) : Int :=
  l.foldl (fun acc c => if c == '_' then acc else acc * 10 + ((c.toNat - 48 : Nat) : Int)) 0

/-- Python `int(s)` on a decimal string: strip whitespace, optional
sign, digit run; `none` models the `ValueError` raise. -/
def pyInt? (s : String) : Option Int :=
  match pyStrip s.data with
  | '+' :: rest => if pyDigits rest then some (digitsVal rest) else none
  | '-' :: rest => if pyDigits rest then some (-(digitsVal rest)) else none
  | rest => if pyDigits rest then some (digitsVal rest) else none

/-- Lift a lesson-branch result into the entry-point result, whose state
is `none` as long as no system object has been constructed. -/
def liftSome : PyRes GitLearningSystem → PyRes (Option GitLearningSystem)
  | .ok st evs => .ok (some st) evs
  | .exn st evs m => .exn (some st) evs m

/-- The `--lesson` branch of `main`, push.py lines 424-439:
`lesson_num = int(sys.argv[2]) if len(sys.argv) > 2 else 1` -- the
conversion happens before the system is created, and an invalid literal
raises an uncaught `ValueError`; with no second argument the number
defaults to 1. -/
def lessonMode (env : Env) (arg2? : Option String) : PyRes (Option GitLearningSystem) :=
  match arg2? with
  | none => liftSome (runLesson env 1)
  | some str =>
      match pyInt? str with
      | none => .exn none []
          ("ValueError: invalid literal for int() with base 10: \x27" ++ str ++ "\x27")
      | some n => liftSome (runLesson env n)

/-- A concrete environment for evaluating the theorems on explicit
inputs. -/
def env0 : Env :=
  { hash := fun _ => "abc1234", time := fun _ => "2025-01-01 00:00:00" }

/-- A system in which lesson 1 has already created the `main` branch:
concrete input for evaluating the branching theorems. -/
def mainOnlySystem : GitLearningSystem :=
  { GitLearningSystem.make with
    repo := { GitRepository.make with branches := [("main", ⟨"main", [], true⟩)] } }

/-- A concrete commit for evaluating the visualization theorems. -/
def demoCommit (n : Nat) : Commit :=
  ⟨"c00000" ++ toString n, "message " ++ toString n, author, "2025-01-01 00:00:00"⟩

/-- A concrete branch with five commits (more than three). -/
def demoMainBranch : Branch :=
  ⟨"main", [demoCommit 1, demoCommit 2, demoCommit 3, demoCommit 4, demoCommit 5], true⟩

/-- A concrete repository holding `demoMainBranch`. -/
def demoRepo : GitRepository :=
  { GitRepository.make with branches := [("main", demoMainBranch)] }

/- Helper lemmas about the embedding's containers. -/

theorem dictGet_set_self (d : List (String × Branch)) (k : String) (v : Branch) :
    dictGet? (dictSet d k v) k = some v := by
  induction d with
  | nil => simp [dictSet, dictGet?]
  | cons p rest ih =>
      by_cases h : p.1 == k
      · simp [dictSet, dictGet?, h]
      · simp [dictSet, dictGet?, h, ih]

theorem dictGet_set_ne (d : List (String × Branch)) (k k' : String) (v : Branch)
    (h : k' ≠ k) : dictGet? (dictSet d k v) k' = dictGet? d k' := by
  induction d with
  | nil => simp [dictSet, dictGet?, beq_iff_eq, Ne.symm h]
  | cons p rest ih =>
      by_cases hp : p.1 == k
      · have hp' : p.1 = k := by simpa [beq_iff_eq] using hp
        simp [dictSet, dictGet?, hp, hp', beq_iff_eq, Ne.symm h]
      · simp [dictSet, dictGet?, hp, ih]

theorem cmap_mem_split {α β : Type} (f : α → List β) (x : α) (l : List α) (h : x ∈ l) :
    ∃ pre post, cmap f l = pre ++ f x ++ post := by
  induction l with
  | nil => cases h
  | cons a tl ih =>
      rcases List.mem_cons.mp h with rfl | hx
      · exact ⟨[], cmap f tl, rfl⟩
      · obtain ⟨pre, post, hpre⟩ := ih hx
        exact ⟨f a ++ pre, post, by simp [cmap, hpre]⟩

theorem writesOf_append (l₁ l₂ : List Ev) :
    writesOf (l₁ ++ l₂) = writesOf l₁ ++ writesOf l₂ := by
  simp [writesOf]

theorem writesOf_cmap_frame {α : Type} (f : α → String) (d : ℚ) (l : List α) :
    writesOf (cmap (fun x => [Ev.write (f x), Ev.sleep d]) l) = l.map f := by
  induction l with
  | nil => rfl
  | cons x xs ih => simpa [cmap, writesOf_append, writesOf] using ih

theorem sleepsOf_append (l₁ l₂ : List Ev) :
    sleepsOf (l₁ ++ l₂) = sleepsOf l₁ ++ sleepsOf l₂ := by
  simp [sleepsOf]

theorem sleepsOf_cmap_frame {α : Type} (f : α → String) (d : ℚ) (l : List α) :
    sleepsOf (cmap (fun x => [Ev.write (f x), Ev.sleep d]) l) = List.replicate l.length d := by
  induction l with
  | nil => rfl
  | cons x xs ih =>
      have h2 : ∀ s l, sleepsOf (Ev.write s :: l) = sleepsOf l := fun _ _ => rfl
      have h3 : ∀ q l, sleepsOf (Ev.sleep q :: l) = q :: sleepsOf l := fun _ _ => rfl
      simp only [cmap, List.cons_append, List.nil_append, h2, h3, ih,
        List.length_cons, List.replicate_succ]

theorem pbPercent_eq (N i : Nat) : pbPercent N i = 100 * i / N := by
  unfold pbPercent
  rcases Nat.eq_zero_or_pos N with h | _
  · subst h; simp
  · have e : ((i : ℚ) / (N : ℚ)) * 100 = ((100 * i : ℕ) : ℚ) / ((N : ℕ) : ℚ) := by
      push_cast; ring
    rw [e, Nat.floor_div_nat, Nat.floor_natCast]

theorem pbFilled_eq (N i : Nat) : pbFilled N i = 30 * i / N := by
  unfold pbFilled
  rcases Nat.eq_zero_or_pos N with h | _
  · subst h; simp
  · have e : (30 : ℚ) * ((i : ℚ) / (N : ℚ)) = ((30 * i : ℕ) : ℚ) / ((N : ℕ) : ℚ) := by
      push_cast; ring
    rw [e, Nat.floor_div_nat, Nat.floor_natCast]

/- Claim theorems. -/

/-- C1: the spec requires that the progress bar called with `steps = 0`
raise no division error, terminate, and emit its frames and a final line
break. The source special-cases nothing: with `steps = 0` the first loop
iteration evaluates `0 / 0` and raises `ZeroDivisionError` before a
single byte is written, so the run neither terminates normally nor
emits any output. -/
theorem progress_bar_zero_steps_raises (a : GitAnimator) (desc : String) :
    progress_bar a 0 desc = .exn () [] "ZeroDivisionError: division by zero" := rfl

/-- C2 counterexample: fast mode reassigns the speed attribute of an
animator already constructed with speed 1.0, and nothing recomputes the
stored delay. The claim says every delay (in particular the per-frame
delay of `progress_bar`) becomes one third of its default-speed value
0.5, i.e. `0.5 / 3`; in fact the animator set up by `--fast` has
`speed = 3` but `delay = 0.5`, and every inter-frame pause of its
progress bar is still `0.5`. -/
theorem fast_mode_delay_not_scaled_cex :
    fastModeSetup.animator.speed = 3 ∧
    fastModeSetup.animator.delay ≠ (1 / 2) / fastModeSetup.animator.speed ∧
    sleepsOf (progress_bar fastModeSetup.animator 3 "Establishing connection").events =
      List.replicate 4 (1 / 2) := by
  have hd : fastModeSetup.animator.delay = 1 / 2 := by
    norm_num [fastModeSetup, GitLearningSystem.make, GitAnimator.make]
  refine ⟨rfl, ?_, ?_⟩
  · have hs : fastModeSetup.animator.speed = 3 := rfl
    rw [hd, hs]; norm_num
  · have hev : (progress_bar fastModeSetup.animator 3 "Establishing connection").events =
        cmap (fun i => [Ev.write (pbFrame 3 "Establishing connection" i),
          Ev.sleep fastModeSetup.animator.delay]) (List.range 4) ++ [Ev.write "\n"] := rfl
    rw [hev, sleepsOf_append, sleepsOf_cmap_frame, List.length_range, hd]
    simp [sleepsOf]

/-- C2 amended: an animator constructed with speed `s` does use delays
scaled inversely by `s` (frame delay `0.5 / s`, typewriter pause
`0.03 / s` per character). Fast mode, however, only reassigns the speed
attribute after construction, so its stored frame delay -- the pause
used by `progress_bar`, `commit_flow` and `push_animation` -- remains
the default-speed value `0.5`, and only the typewriter pause, recomputed
from the speed attribute at each call, becomes one third. -/
theorem animator_delay_scaling_amended (s : ℚ) :
    (GitAnimator.make s).delay = (1 / 2) / s ∧
    typewriterDelay (GitAnimator.make s) = (3 / 100) / s ∧
    fastModeSetup.animator.delay = (GitAnimator.make 1).delay ∧
    typewriterDelay fastModeSetup.animator = (3 / 100) / 3 :=
  ⟨rfl, rfl, rfl, rfl⟩

/-- C3: dispatching the practiced command "git diff" (which matches none
of the earlier substrings "status", "log", "branch") does invoke the
diff renderer, but the renderer prints nothing: in the source the eight
print statements after the `simulate_diff` header are indented at class
level, so the method body is only its docstring, and the fixed diff
block is emitted exactly once at import time instead. -/
theorem simulate_diff_renders_nothing (s : GitLearningSystem) :
    practiceDispatch s "git diff" = .ok () (simulate_diff s.repo) ∧
    simulate_diff s.repo = [] ∧
    classBodyDiffEvents ≠ [] := by
  have h1 : infixB "status".data "git diff".data = false := by decide
  have h2 : infixB "log".data "git diff".data = false := by decide
  have h3 : infixB "branch".data "git diff".data = false := by decide
  have h4 : infixB "diff".data "git diff".data = true := by decide
  refine ⟨?_, rfl, by simp [classBodyDiffEvents]⟩
  simp [practiceDispatch, h1, h2, h3, h4]

/-- C8: the push animation invoked with zero commits emits zero
per-commit upload indicators (the upload phase is empty), terminates
normally, and still prints the success line naming the remote and the
branch. -/
theorem push_animation_zero_commits_ok (a : GitAnimator) (remote branch : String) :
    uploadEvents a 0 = [] ∧
    ∃ evs, push_animation a 0 remote branch = .ok () evs ∧
      prn ("\n" ++ Color.GREEN ++ "✓ Push completed successfully!" ++ Color.END) ∈ evs ∧
      prn ("  → " ++ Color.BLUE ++ remote ++ "/" ++ branch ++ Color.END) ∈ evs := by
  refine ⟨rfl, _, rfl, ?_, ?_⟩ <;> simp [uploadEvents, cmap]


/-- C9: for steps `N > 0` the progress bar terminates normally, writes
exactly `N + 1` frames followed by the final line break, frame `i` shows
the filled fraction and percentage floored from `i / N` (filled cells
`int(30 * i / N)`, percentage `int(100 * i / N)`), and the final frame
shows 100%. -/
theorem progress_bar_frame_count (a : GitAnimator) (desc : String) (N : Nat) (h : 0 < N) :
    ∃ evs, progress_bar a N desc = .ok () evs ∧
      writesOf evs = (List.range (N + 1)).map (pbFrame N desc) ++ ["\n"] ∧
      ((List.range (N + 1)).map (pbFrame N desc)).length = N + 1 ∧
      (∀ i, i ≤ N → pbPercent N i = 100 * i / N ∧ pbFilled N i = 30 * i / N) ∧
      pbPercent N N = 100 := by
  refine ⟨cmap (fun i => [Ev.write (pbFrame N desc i), Ev.sleep a.delay])
      (List.range (N + 1)) ++ [Ev.write "\n"], ?_, ?_, ?_, ?_, ?_⟩
  · simp [progress_bar, h.ne']
  · rw [writesOf_append, writesOf_cmap_frame]; rfl
  · simp
  · exact fun i _ => ⟨pbPercent_eq N i, pbFilled_eq N i⟩
  · rw [pbPercent_eq, Nat.mul_comm 100 N, Nat.mul_div_cancel_left _ h]

/-- C9 witness: the theorem evaluated at steps `N = 4`. -/
theorem progress_bar_frame_count_witness :
    0 < 4 ∧
    ∃ evs, progress_bar (GitAnimator.make 1) 4 "Initializing repository" = .ok () evs ∧
      writesOf evs = (List.range (4 + 1)).map (pbFrame 4 "Initializing repository") ++ ["\n"] ∧
      ((List.range (4 + 1)).map (pbFrame 4 "Initializing repository")).length = 4 + 1 ∧
      (∀ i, i ≤ 4 → pbPercent 4 i = 100 * i / 4 ∧ pbFilled 4 i = 30 * i / 4) ∧
      pbPercent 4 4 = 100 :=
  ⟨by decide, progress_bar_frame_count (GitAnimator.make 1) "Initializing repository" 4 (by decide)⟩

/-- C4: when no branch named `main` exists in the branch mapping, lesson
3 raises a lookup error (`KeyError` on `main`) with the state unchanged
at the moment of the raise; in particular no `main` branch has been
created. -/
theorem lesson_branching_missing_main_errors (env : Env) (s : GitLearningSystem)
    (h : dictGet? s.repo.branches "main" = none) :
    ∃ evs, lesson_branching env s = .exn s evs "KeyError: \x27main\x27" ∧
      dictGet? (lesson_branching env s).state.repo.branches "main" = none := by
  have e : lesson_branching env s = .exn s
      ([prn ("\n" ++ Color.BOLD ++ "=== Lesson 3: Branching and Merging ===" ++ Color.END),
        prn ("\n" ++ Color.YELLOW ++ "$ git branch feature-auth" ++ Color.END)] ++
        typewriter s.animator "Creating new branch \x27feature-auth\x27..." Color.WHITE)
      "KeyError: \x27main\x27" := by
    unfold lesson_branching
    rw [h]
  refine ⟨_, e, ?_⟩
  rw [e]
  exact h

/-- C4 witness: the theorem evaluated on the freshly constructed system,
in which no branch exists yet. -/
theorem lesson_branching_missing_main_errors_witness :
    dictGet? GitLearningSystem.make.repo.branches "main" = none ∧
    ∃ evs, lesson_branching env0 GitLearningSystem.make =
        .exn GitLearningSystem.make evs "KeyError: \x27main\x27" ∧
      dictGet? (lesson_branching env0 GitLearningSystem.make).state.repo.branches "main" = none :=
  ⟨rfl, lesson_branching_missing_main_errors env0 GitLearningSystem.make rfl⟩

/-- C5: `--lesson N` with `N` outside [1, 4] prints the usage-range
message and returns the freshly constructed system untouched: its branch
mapping, staged and working file lists are empty and the lesson counter
is zero, and no lesson body has run. -/
theorem run_lesson_out_of_range_no_mutation (env : Env) (n : Int) (h : n < 1 ∨ 4 < n) :
    runLesson env n = .ok GitLearningSystem.make [prn (usageMsg n)] ∧
    GitLearningSystem.make.repo.branches = [] ∧
    GitLearningSystem.make.repo.staged_files = [] ∧
    GitLearningSystem.make.repo.working_files = [] ∧
    GitLearningSystem.make.lessons_completed = 0 := by
  have hcond : ¬ (1 ≤ n ∧ n ≤ 4) := by omega
  refine ⟨?_, rfl, rfl, rfl, rfl⟩
  unfold runLesson
  rw [if_neg hcond]

/-- C5 witness: the theorem evaluated at `N = 7`. -/
theorem run_lesson_out_of_range_no_mutation_witness :
    ((7 : Int) < 1 ∨ 4 < (7 : Int)) ∧
    (runLesson env0 7 = .ok GitLearningSystem.make [prn (usageMsg 7)] ∧
     GitLearningSystem.make.repo.branches = [] ∧
     GitLearningSystem.make.repo.staged_files = [] ∧
     GitLearningSystem.make.repo.working_files = [] ∧
     GitLearningSystem.make.lessons_completed = 0) :=
  ⟨by decide, run_lesson_out_of_range_no_mutation env0 7 (by decide)⟩

/-- C6: when `main` exists, lesson 3 succeeds; the new branch is seeded
with a snapshot copy of the `main` commit sequence and the two feature
commits are appended to it, while the `main` entry of the mapping -- its
commit sequence included -- is left exactly as it was. -/
theorem lesson_branching_preserves_main_commits (env : Env) (s : GitLearningSystem)
    (mainBr : Branch) (h : dictGet? s.repo.branches "main" = some mainBr) :
    ∃ st evs c1 c2, lesson_branching env s = .ok st evs ∧
      dictGet? st.repo.branches "main" = some mainBr ∧
      dictGet? st.repo.branches "feature-auth" =
        some ⟨"feature-auth", (mainBr.commits ++ [c1]) ++ [c2], false⟩ := by
  have hne : ("main" : String) ≠ "feature-auth" := by decide
  unfold lesson_branching
  rw [h]
  simp only [dictGet_set_self]
  refine ⟨_, _,
    ⟨env.hash s.repo.ticks, "Add login functionality", author, env.time s.repo.ticks⟩,
    ⟨env.hash (s.repo.ticks + 1), "Add password validation", author,
      env.time (s.repo.ticks + 1)⟩, rfl, ?_, ?_⟩
  · rw [dictGet_set_ne _ _ _ _ hne, dictGet_set_ne _ _ _ _ hne, dictGet_set_ne _ _ _ _ hne]
    exact h
  · rw [dictGet_set_self]

/-- C6 witness: the theorem evaluated on a system whose mapping holds an
empty `main` branch. -/
theorem lesson_branching_preserves_main_commits_witness :
    dictGet? mainOnlySystem.repo.branches "main" = some ⟨"main", [], true⟩ ∧
    ∃ st evs c1 c2, lesson_branching env0 mainOnlySystem = .ok st evs ∧
      dictGet? st.repo.branches "main" = some ⟨"main", [], true⟩ ∧
      dictGet? st.repo.branches "feature-auth" =
        some ⟨"feature-auth", ((⟨"main", [], true⟩ : Branch).commits ++ [c1]) ++ [c2], false⟩ :=
  ⟨rfl, lesson_branching_preserves_main_commits env0 mainOnlySystem ⟨"main", [], true⟩ rfl⟩

/-- C7: for every repository and every entry of its branch mapping, the
branch visualization contains that branch's block, and the commit lines
of the block (the reversal of `recentCommits`) are exactly the last 3
commits in most-recent-first order when the branch has more than 3
commits, and all of its commits in most-recent-first order otherwise. -/
theorem branch_visualization_recent_commits (repo : GitRepository) (p : String × Branch)
    (h : p ∈ repo.branches) :
    (∃ pre post, branch_visualization repo = pre ++ branchBlock repo.current_branch p ++ post) ∧
    (3 < p.2.commits.length →
      (recentCommits p.2.commits).reverse.length = 3 ∧
      (recentCommits p.2.commits).reverse = p.2.commits.reverse.take 3) ∧
    (p.2.commits.length ≤ 3 → (recentCommits p.2.commits).reverse = p.2.commits.reverse) := by
  refine ⟨?_, ?_, ?_⟩
  · obtain ⟨pre, post, hsplit⟩ :=
      cmap_mem_split (branchBlock repo.current_branch) p repo.branches h
    exact ⟨prn ("\n" ++ Color.BOLD ++ "Repository: " ++ repo.name ++ Color.END) ::
        prn "Branch structure:" :: pre, post, by simp [branch_visualization, hsplit]⟩
  · intro hlen
    have hrev : (recentCommits p.2.commits).reverse = p.2.commits.reverse.take 3 := by
      unfold recentCommits
      rw [if_pos hlen]
      calc (p.2.commits.drop (p.2.commits.length - 3)).reverse
          = (List.rtake p.2.commits 3).reverse := rfl
        _ = ((p.2.commits.reverse.take 3).reverse).reverse := by
              rw [List.rtake_eq_reverse_take_reverse]
        _ = p.2.commits.reverse.take 3 := List.reverse_reverse _
    refine ⟨?_, hrev⟩
    rw [hrev, List.length_take, List.length_reverse]
    omega
  · intro hlen
    unfold recentCommits
    rw [if_neg (by omega)]

/-- C7 witness: the theorem evaluated on a repository whose `main`
branch holds five commits. -/
theorem branch_visualization_recent_commits_witness :
    ("main", demoMainBranch) ∈ demoRepo.branches ∧
    ((∃ pre post, branch_visualization demoRepo =
        pre ++ branchBlock demoRepo.current_branch ("main", demoMainBranch) ++ post) ∧
     (3 < demoMainBranch.commits.length →
       (recentCommits demoMainBranch.commits).reverse.length = 3 ∧
       (recentCommits demoMainBranch.commits).reverse = demoMainBranch.commits.reverse.take 3) ∧
     (demoMainBranch.commits.length ≤ 3 →
       (recentCommits demoMainBranch.commits).reverse = demoMainBranch.commits.reverse)) :=
  ⟨by decide, branch_visualization_recent_commits demoRepo ("main", demoMainBranch) (by decide)⟩

/-- C10: in the `--lesson` branch of the entry point, a second argument
that is not a valid integer literal makes the int conversion raise an
uncaught `ValueError` before any system is constructed (no usage or
range message is printed); with no second argument the lesson number
defaults to 1 and lesson 1 runs on the fresh system, completing with the
counter at 1 and the `main` branch created. -/
theorem lesson_mode_arg_parsing (env : Env) (str : String) (h : pyInt? str = none) :
    lessonMode env (some str) = .exn none []
        ("ValueError: invalid literal for int() with base 10: \x27" ++ str ++ "\x27") ∧
    lessonMode env none = liftSome (runLesson env 1) ∧
    runLesson env 1 = lesson_init env GitLearningSystem.make ∧
    ∃ st evs, lessonMode env none = .ok (some st) evs ∧
      st.lessons_completed = 1 ∧
      dictGet? st.repo.branches "main" = some ⟨"main", [], true⟩ := by
  refine ⟨?_, rfl, rfl, ?_⟩
  · unfold lessonMode
    dsimp only
    rw [h]
  · exact ⟨_, _, rfl, rfl, rfl⟩

/-- C10 witness: the theorem evaluated at the invalid literal "abc". -/
theorem lesson_mode_arg_parsing_witness :
    pyInt? "abc" = none ∧
    (lessonMode env0 (some "abc") = .exn none []
        ("ValueError: invalid literal for int() with base 10: \x27" ++ "abc" ++ "\x27") ∧
     lessonMode env0 none = liftSome (runLesson env0 1) ∧
     runLesson env0 1 = lesson_init env0 GitLearningSystem.make ∧
     ∃ st evs, lessonMode env0 none = .ok (some st) evs ∧
       st.lessons_completed = 1 ∧
       dictGet? st.repo.branches "main" = some ⟨"main", [], true⟩) :=
  ⟨by decide, lesson_mode_arg_parsing env0 "abc" (by decide)⟩

end VGit
